import Mathlib

/-!
Shallow embedding of the EVM contract actor (`src/actors/evm/src/lib.rs`):
the method dispatcher with its four operations (constructor, invoke_contract,
bytecode, storage_at), the persistent contract state record, and the
boundary contracts of the bytecode execution engine, the storage trie and
the host runtime.  The engine, the state module and the host runtime are not
part of the examined source; where they are needed they are modelled from
the specification and marked as such.
-/

namespace EvmActor

/-- 256-bit unsigned integers, modelled as natural numbers (no arithmetic is
performed on them at this boundary, only storage and comparison). -/
abbrev U256 := Nat

/-- An actor address, identified by its numeric id. -/
abbrev Addr := Nat

/-- Modelled from the spec: the storage trie is a mapping from 256-bit keys
to 256-bit values; absent keys read as no value.  Modelled as an
association list of key-value pairs. -/
abbrev Kamt := List (U256 × U256)

/-- Modelled from the spec: a content identifier is an address derived from
the stored content itself.  Content addressing is modelled by letting the
identifier carry the content: a reference either to raw stored bytes or to
a flushed trie root. -/
inductive Cid where
  | bytes (b : List Nat)
  | root (k : Kamt)
deriving DecidableEq

/-- Maximum allowed EVM bytecode size.  The contract code size limit is
24kB (`MAX_CODE_SIZE` in the source, `24 << 10`). -/
def MAX_CODE_SIZE : Nat := 24 <<< 10

/-- The distinguished exit code for a reverted contract call
(`EVM_CONTRACT_REVERTED = ExitCode::new(27)` in the source). -/
def EVM_CONTRACT_REVERTED : Nat := 27

/-- Modelled from the spec: a structured actor failure, an exit code paired
with a message.  The spec fixes only the reverted code (27) numerically;
the other kinds (illegal argument, illegal state, not found, permission
denied, serialization, unspecified) are distinguished by distinct codes. -/
structure ActorError where
  exit_code : Nat
  msg : String
deriving DecidableEq

/-- Modelled from the spec: exit code for the illegal-argument failure kind. -/
def USR_ILLEGAL_ARGUMENT : Nat := 16

/-- Modelled from the spec: exit code for the not-found failure kind. -/
def USR_NOT_FOUND : Nat := 17

/-- Modelled from the spec: exit code for the permission-denied failure kind. -/
def USR_FORBIDDEN : Nat := 18

/-- Modelled from the spec: exit code for the illegal-state failure kind. -/
def USR_ILLEGAL_STATE : Nat := 20

/-- Modelled from the spec: exit code for the serialization failure kind. -/
def USR_SERIALIZATION : Nat := 21

/-- Modelled from the spec: exit code for the unspecified internal failure kind. -/
def USR_UNSPECIFIED : Nat := 23

/-- Modelled from the spec: the illegal-argument failure constructor of the
host runtime framework. -/
def ActorError.illegal_argument (m : String) : ActorError :=
  { exit_code := USR_ILLEGAL_ARGUMENT, msg := m }

/-- Modelled from the spec: the not-found failure constructor. -/
def ActorError.not_found (m : String) : ActorError :=
  { exit_code := USR_NOT_FOUND, msg := m }

/-- Modelled from the spec: the permission-denied (forbidden) failure constructor. -/
def ActorError.forbidden (m : String) : ActorError :=
  { exit_code := USR_FORBIDDEN, msg := m }

/-- Modelled from the spec: the illegal-state failure constructor. -/
def ActorError.illegal_state (m : String) : ActorError :=
  { exit_code := USR_ILLEGAL_STATE, msg := m }

/-- Modelled from the spec: the serialization failure constructor. -/
def ActorError.serialization (m : String) : ActorError :=
  { exit_code := USR_SERIALIZATION, msg := m }

/-- Modelled from the spec: the unspecified internal failure constructor. -/
def ActorError.unspecified (m : String) : ActorError :=
  { exit_code := USR_UNSPECIFIED, msg := m }

/-- An actor failure with an explicitly chosen exit code
(`ActorError::unchecked` in the host runtime framework). -/
def ActorError.unchecked (code : Nat) (m : String) : ActorError :=
  { exit_code := code, msg := m }

/-- Modelled from the spec: the status tag of an execution outcome as
consumed at this boundary: success, a typed actor error to be propagated
verbatim, or any other engine status (carrying its display string). -/
inductive StatusCode where
  | Success
  | ActorError (e : EvmActor.ActorError)
  | Other (s : String)
deriving DecidableEq

/-- Modelled from the spec: the display string of a status, used when
formatting the generic invocation-failure message. -/
def StatusCode.display : StatusCode → String
  | StatusCode.Success => "success"
  | StatusCode.ActorError _ => "actor error"
  | StatusCode.Other s => s

/-- The execution outcome record produced by the engine: a reverted flag, a
status tag, output bytes, and an optional self-destruct target. -/
structure Execution where
  reverted : Bool
  status_code : StatusCode
  output_data : List Nat
  selfdestroyed : Option Addr
deriving DecidableEq

/-- The ephemeral call context (`ExecutionState` in the source): a numeric
method selector and input bytes, constructed fresh per call. -/
structure ExecutionState where
  method : Nat
  input : List Nat
deriving DecidableEq

/-- `ExecutionState::new(method, input)`. -/
def ExecutionState.new (method : Nat) (input : List Nat) : ExecutionState :=
  { method := method, input := input }

/-- Modelled from the spec: the external contract of the bytecode execution
engine and the platform abstraction layer.  `newSystem` is the fallible
construction of the abstraction layer; `parse` is the structural validation
of raw bytecode (`Bytecode::new`); `run` executes a validated program
against a call context and a trie, deterministically yielding an outcome
(or an engine status on failure) together with the mutated trie.  Theorems
quantify over this structure since the engine internals are out of scope. -/
structure Engine where
  newSystem : Except String Unit
  parse : List Nat → Except String Unit
  run : List Nat → ExecutionState → Kamt → Except StatusCode Execution × Kamt

/-- The persistent contract state record: a content reference to the
deployed bytecode and a content reference to the storage trie root. -/
structure State where
  bytecode : Cid
  contract_state : Cid
deriving DecidableEq

/-- Modelled from the spec: `State::new(store, bytecode, root)` stores the
bytecode bytes, obtains their content reference, and pairs it with the
given trie root.  Under the content-addressed model the reference simply
carries the bytes. -/
def State.new (bytecode : List Nat) (contract_state_cid : Cid) : State :=
  { bytecode := Cid.bytes bytecode, contract_state := contract_state_cid }

/-- Modelled from the spec: a content-addressed byte-store read: a bytes
reference resolves to its bytes, a trie-root reference holds no raw bytes. -/
def storeGet : Cid → Option (List Nat)
  | Cid.bytes b => some b
  | Cid.root _ => none

/-- Modelled from the spec: `Kamt::load_with_config` loads a storage trie
from its root reference under the shared configuration; loading succeeds
exactly for a reference produced by a flush. -/
def Kamt.load_with_config : Cid → Except String Kamt
  | Cid.root k => Except.ok k
  | Cid.bytes _ => Except.error "not a trie root"

/-- Modelled from the spec: read one storage slot by key; absent keys read
as no value, never zero implicitly. -/
def Kamt.get : Kamt → U256 → Option U256
  | [], _ => none
  | (k, v) :: rest, key => if k = key then some v else Kamt.get rest key

/-- Modelled from the spec: `System::flush_state` flushes all buffered trie
mutations and returns the new trie root content reference. -/
def flush_state (k : Kamt) : Cid := Cid.root k

/-- A state-changing host-runtime action recorded in order: creating the
actor record, committing a state transaction, deleting an actor. -/
inductive Event where
  | created (s : State)
  | committed (s : State)
  | deleted (a : Addr)
deriving DecidableEq

/-- Modelled from the spec: the host runtime handle visible at this
boundary: the immediate caller id, the actor record (absent before
construction), the set of deleted actors, and the ordered trace of
state-changing actions. -/
structure RT where
  caller : Addr
  persisted : Option State
  deleted : List Addr
  events : List Event
deriving DecidableEq

/-- Modelled from the spec: `rt.state()` reads the actor record, failing
with an illegal-state error when none exists. -/
def Runtime.state (rt : RT) : Except ActorError State :=
  match rt.persisted with
  | some s => Except.ok s
  | none => Except.error (ActorError.illegal_state "failed to load actor state")

/-- Modelled from the spec: `rt.create(state)` persists the initial actor
record, failing when a record already exists. -/
def Runtime.create (s : State) (rt : RT) : Except ActorError Unit × RT :=
  match rt.persisted with
  | some _ => (Except.error (ActorError.illegal_state "state already constructed"), rt)
  | none =>
    (Except.ok (),
     { rt with persisted := some s, events := rt.events ++ [Event.created s] })

/-- Modelled from the spec: `rt.transaction(f)` atomically reads, modifies
and writes back the actor record. -/
def Runtime.transaction (f : State → State) (rt : RT) : Except ActorError Unit × RT :=
  match rt.persisted with
  | none => (Except.error (ActorError.illegal_state "transaction without state"), rt)
  | some s =>
    (Except.ok (),
     { rt with persisted := some (f s), events := rt.events ++ [Event.committed (f s)] })

/-- Modelled from the spec: `rt.delete_actor(addr)` deletes the named actor. -/
def Runtime.delete_actor (a : Addr) (rt : RT) : RT :=
  { rt with deleted := rt.deleted ++ [a], events := rt.events ++ [Event.deleted a] }

/-- The deployment parameters (`ConstructorParams`): the program to deploy. -/
structure ConstructorParams where
  bytecode : List Nat
deriving DecidableEq

/-- The storage-read parameters (`GetStorageAtParams`). -/
structure GetStorageAtParams where
  storage_key : U256
deriving DecidableEq

/-- The numeric method dispatch enum of the actor. -/
inductive Method where
  | Constructor
  | InvokeContract
  | GetBytecode
  | GetStorageAt
deriving DecidableEq

/-- `METHOD_CONSTRUCTOR` of the host shared library: the constructor method
number is zero. -/
def METHOD_CONSTRUCTOR : Nat := 0

/-- The numeric value of each dispatch enum variant (`Method as u64`). -/
def Method.as_u64 : Method → Nat
  | Method.Constructor => METHOD_CONSTRUCTOR
  | Method.InvokeContract => 2
  | Method.GetBytecode => 3
  | Method.GetStorageAt => 4

/-- `FromPrimitive::from_u64` on the dispatch enum: 0, 2, 3, 4 map to the
four variants, every other number to none. -/
def Method.from_u64 (n : Nat) : Option Method :=
  if n = METHOD_CONSTRUCTOR then some Method.Constructor
  else if n = 2 then some Method.InvokeContract
  else if n = 3 then some Method.GetBytecode
  else if n = 4 then some Method.GetStorageAt
  else none

/-- `EvmContractActor::constructor`: validate the bytecode size, open a
fresh empty trie, construct the abstraction layer, build the call context
with method Constructor and empty input, parse the bytecode, run the
engine, and handle the outcome exactly as the source does. -/
def EvmContractActor.constructor (eng : Engine) (params : ConstructorParams) (rt : RT) :
    Except ActorError Unit × RT :=
  if params.bytecode.length > MAX_CODE_SIZE then
    (Except.error (ActorError.illegal_argument
      "EVM byte code length is exceeding the maximum allowed"), rt)
  else if params.bytecode.isEmpty then
    (Except.error (ActorError.illegal_argument "no bytecode provided"), rt)
  else
    let kamt : Kamt := []
    match eng.newSystem with
    | Except.error _ =>
      (Except.error (ActorError.unspecified
        "failed to create execution abstraction layer"), rt)
    | Except.ok () =>
      let exec_state := ExecutionState.new (Method.as_u64 Method.Constructor) []
      match eng.parse params.bytecode with
      | Except.error _ =>
        (Except.error (ActorError.unspecified "failed to parse bytecode"), rt)
      | Except.ok () =>
        match eng.run params.bytecode exec_state kamt with
        | (Except.error (StatusCode.ActorError e), _) => (Except.error e, rt)
        | (Except.error _, _) =>
          (Except.error (ActorError.unspecified "EVM execution error"), rt)
        | (Except.ok exec_status, kamt2) =>
          if exec_status.reverted then
            (Except.error (ActorError.unchecked EVM_CONTRACT_REVERTED
              "constructor reverted"), rt)
          else if exec_status.status_code = StatusCode.Success then
            if exec_status.output_data.isEmpty then
              (Except.error (ActorError.unspecified
                "EVM constructor returned empty contract"), rt)
            else
              let contract_bytecode := exec_status.output_data
              let contract_state_cid := flush_state kamt2
              let state := State.new contract_bytecode contract_state_cid
              Runtime.create state rt
          else
            match exec_status.status_code with
            | StatusCode.ActorError e => (Except.error e, rt)
            | _ =>
              (Except.error (ActorError.unspecified "EVM constructor failed"), rt)

/-- `EvmContractActor::invoke_contract`: load the state record and the
deployed bytecode, parse it, load the storage trie, construct the
abstraction layer, build the call context, run the engine; on non-reverted
success flush the trie and commit the new root via a transaction, then
perform any requested self-destruct deletion and return the output bytes. -/
def EvmContractActor.invoke_contract (eng : Engine) (method : Nat) (input_data : List Nat)
    (rt : RT) : Except ActorError (List Nat) × RT :=
  match Runtime.state rt with
  | Except.error e => (Except.error e, rt)
  | Except.ok state =>
    match storeGet state.bytecode with
    | none => (Except.error (ActorError.unspecified "missing bytecode"), rt)
    | some bytecodeBytes =>
      match eng.parse bytecodeBytes with
      | Except.error _ =>
        (Except.error (ActorError.unspecified "failed to parse bytecode"), rt)
      | Except.ok () =>
        match Kamt.load_with_config state.contract_state with
        | Except.error _ =>
          (Except.error (ActorError.illegal_state
            "failed to load storage KAMT on invoke"), rt)
        | Except.ok kamt =>
          match eng.newSystem with
          | Except.error _ =>
            (Except.error (ActorError.unspecified
              "failed to create execution abstraction layer"), rt)
          | Except.ok () =>
            let exec_state := ExecutionState.new method input_data
            match eng.run bytecodeBytes exec_state kamt with
            | (Except.error (StatusCode.ActorError e), _) => (Except.error e, rt)
            | (Except.error _, _) =>
              (Except.error (ActorError.unspecified "EVM execution error"), rt)
            | (Except.ok exec_status, kamt2) =>
              if exec_status.reverted then
                (Except.error (ActorError.unchecked EVM_CONTRACT_REVERTED
                  "contract reverted"), rt)
              else if exec_status.status_code = StatusCode.Success then
                let contract_state := flush_state kamt2
                match Runtime.transaction
                    (fun st => { st with contract_state := contract_state }) rt with
                | (Except.error e, rt2) => (Except.error e, rt2)
                | (Except.ok (), rt2) =>
                  let rt3 :=
                    match exec_status.selfdestroyed with
                    | some addr => Runtime.delete_actor addr rt2
                    | none => rt2
                  (Except.ok exec_status.output_data, rt3)
              else
                match exec_status.status_code with
                | StatusCode.ActorError e => (Except.error e, rt)
                | _ =>
                  (Except.error (ActorError.unspecified
                    ("EVM contract invocation failed: status: " ++
                      StatusCode.display exec_status.status_code)), rt)

/-- `EvmContractActor::bytecode`: any caller may read; load the state
record and return its bytecode content reference.  No trie access. -/
def EvmContractActor.bytecode (rt : RT) : Except ActorError Cid × RT :=
  match Runtime.state rt with
  | Except.error e => (Except.error e, rt)
  | Except.ok state => (Except.ok state.bytecode, rt)

/-- `EvmContractActor::storage_at`: the caller must be id-address zero;
load the state record, load the storage trie, construct the abstraction
layer, and read the requested key, failing with not-found when absent. -/
def EvmContractActor.storage_at (eng : Engine) (params : GetStorageAtParams) (rt : RT) :
    Except ActorError U256 × RT :=
  if rt.caller = 0 then
    match Runtime.state rt with
    | Except.error e => (Except.error e, rt)
    | Except.ok state =>
      match Kamt.load_with_config state.contract_state with
      | Except.error _ =>
        (Except.error (ActorError.illegal_state
          "failed to load storage KAMT on invoke"), rt)
      | Except.ok kamt =>
        match eng.newSystem with
        | Except.error _ =>
          (Except.error (ActorError.unspecified
            "failed to create execution abstraction layer"), rt)
        | Except.ok () =>
          match Kamt.get kamt params.storage_key with
          | some v => (Except.ok v, rt)
          | none => (Except.error (ActorError.not_found "storage key not found"), rt)
  else
    (Except.error (ActorError.forbidden "caller is not id-address zero"), rt)

/-- Modelled from the spec: the little-endian base-256 byte expansion of a
natural number, used by the compact wire encoding of integer fields. -/
def natToBytes (n : Nat) : List Nat :=
  if h : n = 0 then []
  else n % 256 :: natToBytes (n / 256)
decreasing_by exact Nat.div_lt_self (Nat.pos_of_ne_zero h) (by decide)

/-- Modelled from the spec: reassemble a natural number from its
little-endian base-256 byte expansion. -/
def bytesToNat : List Nat → Nat
  | [] => 0
  | d :: ds => d + 256 * bytesToNat ds

/-- Modelled from the spec: the compact, order-significant positional wire
encoding of the deployment parameters: the single bytes field is written as
a length header followed by the bytes. -/
def ConstructorParams.serialize (p : ConstructorParams) : List Nat :=
  p.bytecode.length :: p.bytecode

/-- Modelled from the spec: decode the deployment parameters from the wire
encoding, requiring the length header to match the remaining bytes. -/
def ConstructorParams.deserialize : List Nat → Option ConstructorParams
  | [] => none
  | l :: rest => if rest.length = l then some { bytecode := rest } else none

/-- Modelled from the spec: the positional wire encoding of the
storage-read parameters: the 256-bit key field is written as a length
header followed by its base-256 byte expansion. -/
def GetStorageAtParams.serialize (p : GetStorageAtParams) : List Nat :=
  (natToBytes p.storage_key).length :: natToBytes p.storage_key

/-- Modelled from the spec: decode the storage-read parameters from the
wire encoding. -/
def GetStorageAtParams.deserialize : List Nat → Option GetStorageAtParams
  | [] => none
  | l :: rest =>
    if rest.length = l then some { storage_key := bytesToNat rest } else none

/-- Modelled from the spec: the wire encoding of a content reference
returned by the get-bytecode route (`RawBytes::serialize(cid)`). -/
def serializeCid : Cid → List Nat
  | Cid.bytes b => 0 :: b.length :: b
  | Cid.root k => 1 :: k.length :: k.flatMap (fun p => [p.1, p.2])

/-- Modelled from the spec: the wire encoding of a 256-bit value returned
by the get-storage-at route (`RawBytes::serialize(value)`). -/
def serializeU256 (v : U256) : List Nat := natToBytes v

/-- `ActorCode::invoke_method`: decode the numeric method id and route the
call: 0 to the constructor (parameters wire-decoded, empty result), 2 to
invoke with method fixed to 2, 3 to get-bytecode (result wire-encoded),
4 to get-storage-at (parameters wire-decoded, result wire-encoded), and
every unmatched number to contract invocation with that number as the call
method and the raw parameter bytes as input. -/
def EvmContractActor.invoke_method (eng : Engine) (method : Nat) (params : List Nat)
    (rt : RT) : Except ActorError (List Nat) × RT :=
  match Method.from_u64 method with
  | some Method.Constructor =>
    match ConstructorParams.deserialize params with
    | none => (Except.error (ActorError.serialization "failed to deserialize params"), rt)
    | some p =>
      match EvmContractActor.constructor eng p rt with
      | (Except.error e, rt2) => (Except.error e, rt2)
      | (Except.ok (), rt2) => (Except.ok [], rt2)
  | some Method.InvokeContract =>
    EvmContractActor.invoke_contract eng (Method.as_u64 Method.InvokeContract) params rt
  | some Method.GetBytecode =>
    match EvmContractActor.bytecode rt with
    | (Except.error e, rt2) => (Except.error e, rt2)
    | (Except.ok cid, rt2) => (Except.ok (serializeCid cid), rt2)
  | some Method.GetStorageAt =>
    match GetStorageAtParams.deserialize params with
    | none => (Except.error (ActorError.serialization "failed to deserialize params"), rt)
    | some p =>
      match EvmContractActor.storage_at eng p rt with
      | (Except.error e, rt2) => (Except.error e, rt2)
      | (Except.ok v, rt2) => (Except.ok (serializeU256 v), rt2)
  | none => EvmContractActor.invoke_contract eng method params rt

/-- Thread a sequence of invocations through the runtime, keeping only the
final runtime state (used to state the bytecode-invariance law). -/
def runInvocations : List (Engine × Nat × List Nat) → RT → RT
  | [], rt => rt
  | (eng, m, i) :: rest, rt =>
    runInvocations rest (EvmContractActor.invoke_contract eng m i rt).2

/-- A sample engine whose execution succeeds without reverting, returns
output bytes `[7]`, requests no self-destruct, and writes slot 1 := 2. -/
def engSucc : Engine :=
  { newSystem := Except.ok ()
    parse := fun _ => Except.ok ()
    run := fun _ _ k =>
      (Except.ok
        { reverted := false
          status_code := StatusCode.Success
          output_data := [7]
          selfdestroyed := none }, (1, 2) :: k) }

/-- A sample engine whose execution reverts (with a typed actor error as
the status tag and non-empty output bytes). -/
def engRevert : Engine :=
  { newSystem := Except.ok ()
    parse := fun _ => Except.ok ()
    run := fun _ _ k =>
      (Except.ok
        { reverted := true
          status_code := StatusCode.ActorError (ActorError.unspecified "typed")
          output_data := [9, 9]
          selfdestroyed := none }, k) }

/-- A sample engine whose execution succeeds with empty output bytes. -/
def engEmpty : Engine :=
  { newSystem := Except.ok ()
    parse := fun _ => Except.ok ()
    run := fun _ _ k =>
      (Except.ok
        { reverted := false
          status_code := StatusCode.Success
          output_data := []
          selfdestroyed := none }, k) }

/-- A sample engine whose execution succeeds and requests the
self-destruction of actor 5. -/
def engDestruct : Engine :=
  { newSystem := Except.ok ()
    parse := fun _ => Except.ok ()
    run := fun _ _ k =>
      (Except.ok
        { reverted := false
          status_code := StatusCode.Success
          output_data := [3]
          selfdestroyed := some 5 }, k) }

/-- A fresh runtime: caller 1, no actor record yet, nothing deleted. -/
def rtFresh : RT :=
  { caller := 1, persisted := none, deleted := [], events := [] }

/-- A runtime holding a deployed contract: bytecode `[1, 2, 3]` and a
storage trie with slot 2 := 9. -/
def rtDeployed : RT :=
  { caller := 1
    persisted := some { bytecode := Cid.bytes [1, 2, 3]
                        contract_state := Cid.root [(2, 9)] }
    deleted := []
    events := [] }

/-- The runtime `rtDeployed` as seen by the reserved system caller
(id-address zero). -/
def rtDeployed0 : RT :=
  { rtDeployed with caller := 0 }

/-- Reassembling the little-endian base-256 expansion of a natural number
recovers the number. -/
theorem bytesToNat_natToBytes (n : Nat) : bytesToNat (natToBytes n) = n := by
  induction n using Nat.strong_induction_on with
  | _ n ih =>
    rw [natToBytes]
    split
    · simp [bytesToNat]
      omega
    · rename_i h
      rw [bytesToNat,
        ih (n / 256) (Nat.div_lt_self (Nat.pos_of_ne_zero h) (by decide))]
      omega

/-- C9: encoding the deployment parameters or the storage-read parameters
through the positional tuple wire format and then decoding recovers an
identical value. -/
theorem roundtrip_params (p : ConstructorParams) (q : GetStorageAtParams) :
    ConstructorParams.deserialize (ConstructorParams.serialize p) = some p ∧
    GetStorageAtParams.deserialize (GetStorageAtParams.serialize q) = some q := by
  constructor
  · simp [ConstructorParams.serialize, ConstructorParams.deserialize]
  · simp [GetStorageAtParams.serialize, GetStorageAtParams.deserialize,
      bytesToNat_natToBytes]

/-- C6: the constructor size validation runs before any execution: for
every engine, bytecode longer than 24576 bytes is rejected with an
illegal-argument error and empty bytecode is rejected with an
illegal-argument error, both leaving the runtime untouched; bytecode of
length exactly 24576 passes the size checks, and with an engine whose
execution succeeds the deployment completes. -/
theorem constructor_size_validation (eng : Engine) (params : ConstructorParams) (rt : RT) :
    (params.bytecode.length > MAX_CODE_SIZE →
      EvmContractActor.constructor eng params rt =
        (Except.error (ActorError.illegal_argument
          "EVM byte code length is exceeding the maximum allowed"), rt)) ∧
    (params.bytecode.length = 0 →
      EvmContractActor.constructor eng params rt =
        (Except.error (ActorError.illegal_argument "no bytecode provided"), rt)) ∧
    (params.bytecode.length = MAX_CODE_SIZE →
      ∀ ex kamt2,
        eng.newSystem = Except.ok () →
        eng.parse params.bytecode = Except.ok () →
        eng.run params.bytecode (ExecutionState.new 0 []) [] = (Except.ok ex, kamt2) →
        ex.reverted = false →
        ex.status_code = StatusCode.Success →
        ex.output_data ≠ [] →
        rt.persisted = none →
        (EvmContractActor.constructor eng params rt).1 = Except.ok ()) := by
  refine ⟨?_, ?_, ?_⟩
  · intro h
    unfold EvmContractActor.constructor
    rw [if_pos h]
  · intro h
    have h0 : params.bytecode = [] := List.length_eq_zero.mp h
    unfold EvmContractActor.constructor
    rw [if_neg (by simp [h0, MAX_CODE_SIZE]), if_pos (by simp [h0])]
  · intro h ex kamt2 hsys hparse hrun hrev hstat hout hpers
    have h1 : ¬ params.bytecode.length > MAX_CODE_SIZE := by omega
    have h2 : ¬ (params.bytecode.isEmpty = true) := by
      simp only [List.isEmpty_eq_true]
      intro hnil
      rw [hnil] at h
      simp [MAX_CODE_SIZE] at h
    unfold EvmContractActor.constructor
    rw [if_neg h1, if_neg h2]
    simp only [Method.as_u64, METHOD_CONSTRUCTOR, hsys, hparse, hrun, hrev, hstat]
    simp [List.isEmpty_eq_true, hout, Runtime.create, hpers]

/-- The numeric value of the maximum code size: 24 shifted left by 10. -/
theorem MAX_CODE_SIZE_eq : MAX_CODE_SIZE = 24576 := by decide

/-- Witness for the size-validation theorem at concrete inputs: 24577
zero bytes are rejected, empty bytecode is rejected, and 24576 zero bytes
deploy successfully under the sample succeeding engine. -/
theorem constructor_size_validation_witness :
    (EvmContractActor.constructor engSucc { bytecode := List.replicate 24577 0 } rtFresh =
      (Except.error (ActorError.illegal_argument
        "EVM byte code length is exceeding the maximum allowed"), rtFresh)) ∧
    (EvmContractActor.constructor engSucc { bytecode := [] } rtFresh =
      (Except.error (ActorError.illegal_argument "no bytecode provided"), rtFresh)) ∧
    (EvmContractActor.constructor engSucc { bytecode := List.replicate 24576 0 } rtFresh).1 =
      Except.ok () :=
  ⟨(constructor_size_validation engSucc _ rtFresh).1
      (by rw [MAX_CODE_SIZE_eq, List.length_replicate]; omega),
   (constructor_size_validation engSucc _ rtFresh).2.1 (by simp),
   (constructor_size_validation engSucc _ rtFresh).2.2
      (by rw [MAX_CODE_SIZE_eq, List.length_replicate]) _ _
     rfl rfl rfl rfl rfl (by simp [engSucc]) rfl⟩

/-- The outcome-handling tail of the constructor, as a function of the
execution outcome, the mutated trie and the runtime. -/
def constructorOutcomeHandling (ex : Execution) (kamt2 : Kamt) (rt : RT) :
    Except ActorError Unit × RT :=
  if ex.reverted then
    (Except.error (ActorError.unchecked EVM_CONTRACT_REVERTED "constructor reverted"), rt)
  else if ex.status_code = StatusCode.Success then
    if ex.output_data.isEmpty then
      (Except.error (ActorError.unspecified "EVM constructor returned empty contract"), rt)
    else
      Runtime.create (State.new ex.output_data (flush_state kamt2)) rt
  else
    match ex.status_code with
    | StatusCode.ActorError e => (Except.error e, rt)
    | _ => (Except.error (ActorError.unspecified "EVM constructor failed"), rt)

/-- When the structural checks pass and the engine returns an outcome, the
constructor reduces to its outcome-handling tail. -/
theorem constructor_reaches_outcome (eng : Engine) (params : ConstructorParams) (rt : RT)
    (ex : Execution) (kamt2 : Kamt)
    (hlen0 : 0 < params.bytecode.length)
    (hlen : params.bytecode.length ≤ MAX_CODE_SIZE)
    (hsys : eng.newSystem = Except.ok ())
    (hparse : eng.parse params.bytecode = Except.ok ())
    (hrun : eng.run params.bytecode (ExecutionState.new 0 []) [] = (Except.ok ex, kamt2)) :
    EvmContractActor.constructor eng params rt = constructorOutcomeHandling ex kamt2 rt := by
  have h1 : ¬ params.bytecode.length > MAX_CODE_SIZE := by omega
  have h2 : ¬ (params.bytecode.isEmpty = true) := by
    simp only [List.isEmpty_eq_true]
    intro hnil
    rw [hnil] at hlen0
    simp at hlen0
  unfold EvmContractActor.constructor
  rw [if_neg h1, if_neg h2]
  simp only [Method.as_u64, METHOD_CONSTRUCTOR, hsys, hparse, hrun]
  rfl

/-- The outcome-handling tail of invoke, as a function of the execution
outcome, the mutated trie and the runtime. -/
def invokeOutcomeHandling (ex : Execution) (kamt2 : Kamt) (rt : RT) :
    Except ActorError (List Nat) × RT :=
  if ex.reverted then
    (Except.error (ActorError.unchecked EVM_CONTRACT_REVERTED "contract reverted"), rt)
  else if ex.status_code = StatusCode.Success then
    match Runtime.transaction (fun st => { st with contract_state := flush_state kamt2 }) rt with
    | (Except.error e, rt2) => (Except.error e, rt2)
    | (Except.ok (), rt2) =>
      let rt3 :=
        match ex.selfdestroyed with
        | some addr => Runtime.delete_actor addr rt2
        | none => rt2
      (Except.ok ex.output_data, rt3)
  else
    match ex.status_code with
    | StatusCode.ActorError e => (Except.error e, rt)
    | _ =>
      (Except.error (ActorError.unspecified
        ("EVM contract invocation failed: status: " ++
          StatusCode.display ex.status_code)), rt)

/-- When the state record loads, the bytecode resolves and parses, the trie
loads, and the engine returns an outcome, invoke reduces to its
outcome-handling tail. -/
theorem invoke_reaches_outcome (eng : Engine) (m : Nat) (input : List Nat) (rt : RT)
    (s : State) (bc : List Nat) (k : Kamt) (ex : Execution) (kamt2 : Kamt)
    (hpers : rt.persisted = some s)
    (hbc : s.bytecode = Cid.bytes bc)
    (hparse : eng.parse bc = Except.ok ())
    (hcs : s.contract_state = Cid.root k)
    (hsys : eng.newSystem = Except.ok ())
    (hrun : eng.run bc (ExecutionState.new m input) k = (Except.ok ex, kamt2)) :
    EvmContractActor.invoke_contract eng m input rt = invokeOutcomeHandling ex kamt2 rt := by
  unfold EvmContractActor.invoke_contract
  simp only [Runtime.state, hpers, hbc, storeGet, hparse, hcs, Kamt.load_with_config,
    hsys, hrun]
  rfl

/-- C2: for every execution outcome with reverted set, the constructor
fails with exit code 27 creating no record and invoke fails with exit code
27 committing no mutation, the runtime left exactly as it was; the
output bytes of the outcome appear nowhere in the result. -/
theorem reverted_outcome_fails_27 (eng : Engine) (params : ConstructorParams)
    (rt : RT) (m : Nat) (input : List Nat) :
    (∀ ex kamt2,
      0 < params.bytecode.length →
      params.bytecode.length ≤ MAX_CODE_SIZE →
      eng.newSystem = Except.ok () →
      eng.parse params.bytecode = Except.ok () →
      eng.run params.bytecode (ExecutionState.new 0 []) [] = (Except.ok ex, kamt2) →
      ex.reverted = true →
      EvmContractActor.constructor eng params rt =
        (Except.error (ActorError.unchecked EVM_CONTRACT_REVERTED "constructor reverted"),
         rt)) ∧
    (∀ s bc k ex kamt2,
      rt.persisted = some s →
      s.bytecode = Cid.bytes bc →
      eng.parse bc = Except.ok () →
      s.contract_state = Cid.root k →
      eng.newSystem = Except.ok () →
      eng.run bc (ExecutionState.new m input) k = (Except.ok ex, kamt2) →
      ex.reverted = true →
      EvmContractActor.invoke_contract eng m input rt =
        (Except.error (ActorError.unchecked EVM_CONTRACT_REVERTED "contract reverted"),
         rt)) := by
  constructor
  · intro ex kamt2 hlen0 hlen hsys hparse hrun hrev
    rw [constructor_reaches_outcome eng params rt ex kamt2 hlen0 hlen hsys hparse hrun]
    unfold constructorOutcomeHandling
    rw [if_pos hrev]
  · intro s bc k ex kamt2 hpers hbc hparse hcs hsys hrun hrev
    rw [invoke_reaches_outcome eng m input rt s bc k ex kamt2 hpers hbc hparse hcs hsys hrun]
    unfold invokeOutcomeHandling
    rw [if_pos hrev]

/-- Witness for the reverted-outcome theorem: under the sample reverting
engine, a fresh deployment of `[1]` and an invocation on the deployed
runtime both fail with the fixed code-27 error, leaving the runtime
unchanged. -/
theorem reverted_outcome_fails_27_witness :
    (EvmContractActor.constructor engRevert { bytecode := [1] } rtFresh =
      (Except.error (ActorError.unchecked EVM_CONTRACT_REVERTED "constructor reverted"),
       rtFresh)) ∧
    (EvmContractActor.invoke_contract engRevert 2 [4] rtDeployed =
      (Except.error (ActorError.unchecked EVM_CONTRACT_REVERTED "contract reverted"),
       rtDeployed)) :=
  ⟨(reverted_outcome_fails_27 engRevert { bytecode := [1] } rtFresh 2 [4]).1 _ _
      (by simp) (by rw [MAX_CODE_SIZE_eq]; simp) rfl rfl rfl rfl,
   (reverted_outcome_fails_27 engRevert { bytecode := [1] } rtDeployed 2 [4]).2 _ _ _ _ _
      rfl rfl rfl rfl rfl rfl rfl⟩

/-- The runtime after the constructor has created the record for deployed
code `bytes` over the flushed trie `k2`. -/
def createdRT (bytes : List Nat) (k2 : Kamt) (rt : RT) : RT :=
  { rt with
    persisted := some (State.new bytes (flush_state k2))
    events := rt.events ++ [Event.created (State.new bytes (flush_state k2))] }

/-- The runtime after invoke has committed the flushed trie root `k2` into
the record `s`. -/
def committedRT (k2 : Kamt) (s : State) (rt : RT) : RT :=
  { rt with
    persisted := some { s with contract_state := flush_state k2 }
    events := rt.events ++ [Event.committed { s with contract_state := flush_state k2 }] }

/-- Every constructor run either fails leaving the runtime untouched, or
succeeds on a non-reverted successful outcome with non-empty output on a
fresh actor, creating exactly the new state record. -/
theorem constructor_shape (eng : Engine) (params : ConstructorParams) (rt : RT) :
    (∃ e, EvmContractActor.constructor eng params rt = (Except.error e, rt)) ∨
    (∃ (ex : Execution) (k2 : Kamt),
      ex.reverted = false ∧ ex.status_code = StatusCode.Success ∧
      ex.output_data ≠ [] ∧ rt.persisted = none ∧
      EvmContractActor.constructor eng params rt =
        (Except.ok (), createdRT ex.output_data k2 rt)) := by
  unfold EvmContractActor.constructor
  by_cases hsz : params.bytecode.length > MAX_CODE_SIZE
  · rw [if_pos hsz]
    exact Or.inl ⟨_, rfl⟩
  · rw [if_neg hsz]
    by_cases hemp : params.bytecode.isEmpty = true
    · rw [if_pos hemp]
      exact Or.inl ⟨_, rfl⟩
    · rw [if_neg hemp]
      cases hn : eng.newSystem with
      | error e => exact Or.inl ⟨_, rfl⟩
      | ok u =>
        cases u
        cases hp : eng.parse params.bytecode with
        | error e => exact Or.inl ⟨_, rfl⟩
        | ok u =>
          cases u
          dsimp only
          rcases hr : eng.run params.bytecode
              (ExecutionState.new (Method.as_u64 Method.Constructor) []) [] with ⟨res, k2⟩
          cases res with
          | error sc =>
            cases sc with
            | Success => exact Or.inl ⟨_, rfl⟩
            | ActorError e => exact Or.inl ⟨_, rfl⟩
            | Other s => exact Or.inl ⟨_, rfl⟩
          | ok ex =>
            dsimp only
            by_cases hrev : ex.reverted = true
            · rw [if_pos hrev]
              exact Or.inl ⟨_, rfl⟩
            · rw [if_neg hrev]
              by_cases hst : ex.status_code = StatusCode.Success
              · rw [if_pos hst]
                by_cases hout : ex.output_data.isEmpty = true
                · rw [if_pos hout]
                  exact Or.inl ⟨_, rfl⟩
                · rw [if_neg hout]
                  unfold Runtime.create
                  cases hpers : rt.persisted with
                  | some s0 => exact Or.inl ⟨_, rfl⟩
                  | none =>
                    refine Or.inr ⟨ex, k2, by simpa using hrev, hst,
                      by simpa using hout, rfl, ?_⟩
                    rfl
              · rw [if_neg hst]
                cases hsc : ex.status_code with
                | Success => exact absurd hsc hst
                | ActorError e => exact Or.inl ⟨_, rfl⟩
                | Other s => exact Or.inl ⟨_, rfl⟩

/-- Every invoke run either fails leaving the runtime untouched, or
succeeds on a non-reverted successful outcome, committing exactly the new
trie root into the state record and then performing the requested
self-destruct deletion if any. -/
theorem invoke_contract_shape (eng : Engine) (m : Nat) (input : List Nat) (rt : RT) :
    (∃ e, EvmContractActor.invoke_contract eng m input rt = (Except.error e, rt)) ∨
    (∃ (ex : Execution) (k2 : Kamt) (s : State), rt.persisted = some s ∧
      ex.reverted = false ∧ ex.status_code = StatusCode.Success ∧
      EvmContractActor.invoke_contract eng m input rt =
        (Except.ok ex.output_data,
         match ex.selfdestroyed with
         | some a => Runtime.delete_actor a (committedRT k2 s rt)
         | none => committedRT k2 s rt)) := by
  unfold EvmContractActor.invoke_contract
  cases hs : Runtime.state rt with
  | error e => exact Or.inl ⟨_, rfl⟩
  | ok s =>
    have hpers : rt.persisted = some s := by
      unfold Runtime.state at hs
      cases hps : rt.persisted with
      | none => rw [hps] at hs; simp at hs
      | some s0 =>
        rw [hps] at hs
        simp only [Except.ok.injEq] at hs
        rw [hs]
    dsimp only
    cases hg : storeGet s.bytecode with
    | none => exact Or.inl ⟨_, rfl⟩
    | some bc =>
      dsimp only
      cases hp : eng.parse bc with
      | error e => exact Or.inl ⟨_, rfl⟩
      | ok u =>
        cases u
        dsimp only
        cases hl : Kamt.load_with_config s.contract_state with
        | error e => exact Or.inl ⟨_, rfl⟩
        | ok k =>
          dsimp only
          cases hn : eng.newSystem with
          | error e => exact Or.inl ⟨_, rfl⟩
          | ok u =>
            cases u
            dsimp only
            rcases hr : eng.run bc (ExecutionState.new m input) k with ⟨res, k2⟩
            cases res with
            | error sc =>
              cases sc with
              | Success => exact Or.inl ⟨_, rfl⟩
              | ActorError e => exact Or.inl ⟨_, rfl⟩
              | Other str => exact Or.inl ⟨_, rfl⟩
            | ok ex =>
              dsimp only
              by_cases hrev : ex.reverted = true
              · rw [if_pos hrev]
                exact Or.inl ⟨_, rfl⟩
              · rw [if_neg hrev]
                by_cases hst : ex.status_code = StatusCode.Success
                · rw [if_pos hst]
                  unfold Runtime.transaction
                  rw [hpers]
                  refine Or.inr ⟨ex, k2, s, rfl, by simpa using hrev, hst, ?_⟩
                  cases ex.selfdestroyed with
                  | some a => rfl
                  | none => rfl
                · rw [if_neg hst]
                  cases hsc : ex.status_code with
                  | Success => exact absurd hsc hst
                  | ActorError e => exact Or.inl ⟨_, rfl⟩
                  | Other str => exact Or.inl ⟨_, rfl⟩

/-- C8: a constructor run whose execution outcome is a non-reverted
success with empty output fails with the unspecified empty-deployment
error and creates no state record (the runtime is left untouched). -/
theorem constructor_empty_output_fails (eng : Engine) (params : ConstructorParams)
    (rt : RT) (ex : Execution) (kamt2 : Kamt)
    (hlen0 : 0 < params.bytecode.length)
    (hlen : params.bytecode.length ≤ MAX_CODE_SIZE)
    (hsys : eng.newSystem = Except.ok ())
    (hparse : eng.parse params.bytecode = Except.ok ())
    (hrun : eng.run params.bytecode (ExecutionState.new 0 []) [] = (Except.ok ex, kamt2))
    (hrev : ex.reverted = false)
    (hstat : ex.status_code = StatusCode.Success)
    (hout : ex.output_data = []) :
    EvmContractActor.constructor eng params rt =
      (Except.error (ActorError.unspecified "EVM constructor returned empty contract"), rt) := by
  rw [constructor_reaches_outcome eng params rt ex kamt2 hlen0 hlen hsys hparse hrun]
  unfold constructorOutcomeHandling
  rw [if_neg (by simp [hrev]), if_pos hstat, if_pos (by simp [hout])]

/-- Witness for the empty-deployment theorem: deploying `[1]` under the
sample empty-output engine fails with the empty-deployment error on a
fresh runtime. -/
theorem constructor_empty_output_fails_witness :
    EvmContractActor.constructor engEmpty { bytecode := [1] } rtFresh =
      (Except.error (ActorError.unspecified "EVM constructor returned empty contract"),
       rtFresh) :=
  constructor_empty_output_fails engEmpty { bytecode := [1] } rtFresh _ _
    (by simp) (by rw [MAX_CODE_SIZE_eq]; simp) rfl rfl rfl rfl rfl rfl

/-- C10: the reverted flag takes precedence over the status tag: an
outcome with reverted set whose status is a typed actor error still fails
with the fixed code-27 error in both the constructor and invoke; the typed
error is not propagated. -/
theorem reverted_precedence_over_status (eng : Engine) (params : ConstructorParams)
    (rt : RT) (m : Nat) (input : List Nat) (e : ActorError) :
    (∀ ex kamt2,
      0 < params.bytecode.length →
      params.bytecode.length ≤ MAX_CODE_SIZE →
      eng.newSystem = Except.ok () →
      eng.parse params.bytecode = Except.ok () →
      eng.run params.bytecode (ExecutionState.new 0 []) [] = (Except.ok ex, kamt2) →
      ex.reverted = true →
      ex.status_code = StatusCode.ActorError e →
      EvmContractActor.constructor eng params rt =
        (Except.error (ActorError.unchecked EVM_CONTRACT_REVERTED "constructor reverted"),
         rt) ∧
      (ActorError.unchecked EVM_CONTRACT_REVERTED "constructor reverted").exit_code = 27) ∧
    (∀ s bc k ex kamt2,
      rt.persisted = some s →
      s.bytecode = Cid.bytes bc →
      eng.parse bc = Except.ok () →
      s.contract_state = Cid.root k →
      eng.newSystem = Except.ok () →
      eng.run bc (ExecutionState.new m input) k = (Except.ok ex, kamt2) →
      ex.reverted = true →
      ex.status_code = StatusCode.ActorError e →
      EvmContractActor.invoke_contract eng m input rt =
        (Except.error (ActorError.unchecked EVM_CONTRACT_REVERTED "contract reverted"),
         rt) ∧
      (ActorError.unchecked EVM_CONTRACT_REVERTED "contract reverted").exit_code = 27) := by
  constructor
  · intro ex kamt2 hlen0 hlen hsys hparse hrun hrev hstat
    refine ⟨?_, rfl⟩
    rw [constructor_reaches_outcome eng params rt ex kamt2 hlen0 hlen hsys hparse hrun]
    unfold constructorOutcomeHandling
    rw [if_pos hrev]
  · intro s bc k ex kamt2 hpers hbc hparse hcs hsys hrun hrev hstat
    refine ⟨?_, rfl⟩
    rw [invoke_reaches_outcome eng m input rt s bc k ex kamt2 hpers hbc hparse hcs hsys hrun]
    unfold invokeOutcomeHandling
    rw [if_pos hrev]

/-- Witness for the reverted-precedence theorem: under the sample
reverting engine (whose outcome carries a typed actor error), deployment
and invocation both fail with the fixed code-27 error. -/
theorem reverted_precedence_over_status_witness :
    (EvmContractActor.constructor engRevert { bytecode := [1] } rtFresh =
      (Except.error (ActorError.unchecked EVM_CONTRACT_REVERTED "constructor reverted"),
       rtFresh) ∧
     (ActorError.unchecked EVM_CONTRACT_REVERTED "constructor reverted").exit_code = 27) ∧
    (EvmContractActor.invoke_contract engRevert 2 [4] rtDeployed =
      (Except.error (ActorError.unchecked EVM_CONTRACT_REVERTED "contract reverted"),
       rtDeployed) ∧
     (ActorError.unchecked EVM_CONTRACT_REVERTED "contract reverted").exit_code = 27) :=
  ⟨(reverted_precedence_over_status engRevert { bytecode := [1] } rtFresh 2 [4]
      (ActorError.unspecified "typed")).1 _ _
      (by simp) (by rw [MAX_CODE_SIZE_eq]; simp) rfl rfl rfl rfl rfl,
   (reverted_precedence_over_status engRevert { bytecode := [1] } rtDeployed 2 [4]
      (ActorError.unspecified "typed")).2 _ _ _ _ _
      rfl rfl rfl rfl rfl rfl rfl rfl⟩

/-- C7: storage_at fails with the permission-denied error for every caller
other than id-address zero, regardless of the requested key; called by
id-address zero it returns the stored value for the key, or fails with the
not-found error when the key was never written. -/
theorem storage_at_access_control (eng : Engine) (params : GetStorageAtParams) (rt : RT) :
    (rt.caller ≠ 0 →
      EvmContractActor.storage_at eng params rt =
        (Except.error (ActorError.forbidden "caller is not id-address zero"), rt)) ∧
    (rt.caller = 0 →
      ∀ s k, rt.persisted = some s → s.contract_state = Cid.root k →
        eng.newSystem = Except.ok () →
        EvmContractActor.storage_at eng params rt =
          match Kamt.get k params.storage_key with
          | some v => (Except.ok v, rt)
          | none => (Except.error (ActorError.not_found "storage key not found"), rt)) := by
  constructor
  · intro h
    unfold EvmContractActor.storage_at
    rw [if_neg h]
  · intro h s k hpers hcs hsys
    unfold EvmContractActor.storage_at
    rw [if_pos h]
    simp only [Runtime.state, hpers, hcs, Kamt.load_with_config, hsys]

/-- Witness for the storage access-control theorem: the non-zero caller of
`rtDeployed` is rejected; the zero caller reads slot 2 as 9 and fails with
not-found on slot 3. -/
theorem storage_at_access_control_witness :
    (EvmContractActor.storage_at engSucc { storage_key := 2 } rtDeployed =
      (Except.error (ActorError.forbidden "caller is not id-address zero"), rtDeployed)) ∧
    (EvmContractActor.storage_at engSucc { storage_key := 2 } rtDeployed0 =
      (Except.ok 9, rtDeployed0)) ∧
    (EvmContractActor.storage_at engSucc { storage_key := 3 } rtDeployed0 =
      (Except.error (ActorError.not_found "storage key not found"), rtDeployed0)) :=
  ⟨(storage_at_access_control engSucc { storage_key := 2 } rtDeployed).1 (by simp [rtDeployed]),
   (storage_at_access_control engSucc { storage_key := 2 } rtDeployed0).2 rfl _ _
      rfl rfl rfl,
   (storage_at_access_control engSucc { storage_key := 3 } rtDeployed0).2 rfl _ _
      rfl rfl rfl⟩

/-- Inversion of the numeric decoding of the dispatch enum. -/
theorem Method.from_u64_inv (m : Nat) :
    (Method.from_u64 m = some Method.Constructor ↔ m = 0) ∧
    (Method.from_u64 m = some Method.InvokeContract ↔ m = 2) ∧
    (Method.from_u64 m = some Method.GetBytecode ↔ m = 3) ∧
    (Method.from_u64 m = some Method.GetStorageAt ↔ m = 4) ∧
    (Method.from_u64 m = none ↔ (m ≠ 0 ∧ m ≠ 2 ∧ m ≠ 3 ∧ m ≠ 4)) := by
  unfold Method.from_u64 METHOD_CONSTRUCTOR
  split_ifs with h1 h2 h3 h4 <;> simp_all

/-- C3: the dispatch table maps method id 0 to the constructor (result
empty), 2 to invoke with method 2, 3 to get-bytecode (result encoded),
4 to get-storage-at (result encoded), and every other method id to
contract invocation with that id as the call context method and the raw
parameter bytes as the call context input. -/
theorem dispatch_table (eng : Engine) (p : List Nat) (rt : RT) (m : Nat) :
    (∀ q, ConstructorParams.deserialize p = some q →
      EvmContractActor.invoke_method eng 0 p rt =
        ((EvmContractActor.constructor eng q rt).1.map (fun _ => []),
         (EvmContractActor.constructor eng q rt).2)) ∧
    (EvmContractActor.invoke_method eng 2 p rt =
      EvmContractActor.invoke_contract eng 2 p rt) ∧
    (EvmContractActor.invoke_method eng 3 p rt =
      ((EvmContractActor.bytecode rt).1.map serializeCid,
       (EvmContractActor.bytecode rt).2)) ∧
    (∀ q, GetStorageAtParams.deserialize p = some q →
      EvmContractActor.invoke_method eng 4 p rt =
        ((EvmContractActor.storage_at eng q rt).1.map serializeU256,
         (EvmContractActor.storage_at eng q rt).2)) ∧
    (m ≠ 0 → m ≠ 2 → m ≠ 3 → m ≠ 4 →
      EvmContractActor.invoke_method eng m p rt =
        EvmContractActor.invoke_contract eng m p rt ∧
      (ExecutionState.new m p).method = m ∧ (ExecutionState.new m p).input = p) := by
  refine ⟨?_, ?_, ?_, ?_, ?_⟩
  · intro q hq
    unfold EvmContractActor.invoke_method
    rw [(Method.from_u64_inv 0).1.mpr rfl]
    dsimp only
    rw [hq]
    dsimp only
    rcases hc : EvmContractActor.constructor eng q rt with ⟨res, rt2⟩
    cases res with
    | error e => rfl
    | ok u => cases u; rfl
  · unfold EvmContractActor.invoke_method
    rw [(Method.from_u64_inv 2).2.1.mpr rfl]
    rfl
  · unfold EvmContractActor.invoke_method
    rw [(Method.from_u64_inv 3).2.2.1.mpr rfl]
    dsimp only
    rcases hb : EvmContractActor.bytecode rt with ⟨res, rt2⟩
    cases res with
    | error e => rfl
    | ok cid => rfl
  · intro q hq
    unfold EvmContractActor.invoke_method
    rw [(Method.from_u64_inv 4).2.2.2.1.mpr rfl]
    dsimp only
    rw [hq]
    dsimp only
    rcases hsa : EvmContractActor.storage_at eng q rt with ⟨res, rt2⟩
    cases res with
    | error e => rfl
    | ok v => rfl
  · intro h0 h2 h3 h4
    refine ⟨?_, rfl, rfl⟩
    unfold EvmContractActor.invoke_method
    rw [(Method.from_u64_inv m).2.2.2.2.mpr ⟨h0, h2, h3, h4⟩]

/-- Witness for the dispatch-table theorem at concrete inputs: method 0
with the wire encoding of `[1]` runs the constructor, method 2 invokes,
method 3 reads the bytecode reference, method 4 reads storage, and method
1000000 is routed to contract invocation. -/
theorem dispatch_table_witness :
    (EvmContractActor.invoke_method engSucc 0 (ConstructorParams.serialize { bytecode := [1] })
        rtFresh =
      ((EvmContractActor.constructor engSucc { bytecode := [1] } rtFresh).1.map (fun _ => []),
       (EvmContractActor.constructor engSucc { bytecode := [1] } rtFresh).2)) ∧
    (EvmContractActor.invoke_method engSucc 2 [4] rtDeployed =
      EvmContractActor.invoke_contract engSucc 2 [4] rtDeployed) ∧
    (EvmContractActor.invoke_method engSucc 3 [] rtDeployed =
      ((EvmContractActor.bytecode rtDeployed).1.map serializeCid,
       (EvmContractActor.bytecode rtDeployed).2)) ∧
    (EvmContractActor.invoke_method engSucc 4
        (GetStorageAtParams.serialize { storage_key := 2 }) rtDeployed0 =
      ((EvmContractActor.storage_at engSucc { storage_key := 2 } rtDeployed0).1.map
          serializeU256,
       (EvmContractActor.storage_at engSucc { storage_key := 2 } rtDeployed0).2)) ∧
    (EvmContractActor.invoke_method engSucc 1000000 [4] rtDeployed =
      EvmContractActor.invoke_contract engSucc 1000000 [4] rtDeployed) :=
  ⟨(dispatch_table engSucc (ConstructorParams.serialize { bytecode := [1] }) rtFresh 5).1
      { bytecode := [1] } (roundtrip_params { bytecode := [1] } { storage_key := 2 }).1,
   (dispatch_table engSucc [4] rtDeployed 5).2.1,
   (dispatch_table engSucc [] rtDeployed 5).2.2.1,
   (dispatch_table engSucc (GetStorageAtParams.serialize { storage_key := 2 })
      rtDeployed0 5).2.2.2.1 { storage_key := 2 }
      (roundtrip_params { bytecode := [1] } { storage_key := 2 }).2,
   ((dispatch_table engSucc [4] rtDeployed 1000000).2.2.2.2 (by omega) (by omega)
      (by omega) (by omega)).1⟩

/-- C4: a failing invoke leaves the runtime exactly as it was (so a
reverted or faulted outcome deletes nothing); a successful invoke commits
the state transaction, and when the outcome names a self-destruct target
the deletion is recorded strictly after the commit — otherwise no deletion
is recorded. -/
theorem selfdestruct_after_commit (eng : Engine) (m : Nat) (input : List Nat) (rt : RT) :
    match EvmContractActor.invoke_contract eng m input rt with
    | (Except.error _, rt2) => rt2 = rt
    | (Except.ok out, rt2) =>
      ∃ (ex : Execution) (k2 : Kamt) (s : State),
        ex.reverted = false ∧ ex.status_code = StatusCode.Success ∧
        out = ex.output_data ∧
        rt2.persisted = some { s with contract_state := flush_state k2 } ∧
        (match ex.selfdestroyed with
         | none =>
           rt2.events = rt.events ++
             [Event.committed { s with contract_state := flush_state k2 }] ∧
           rt2.deleted = rt.deleted
         | some a =>
           rt2.events = rt.events ++
             [Event.committed { s with contract_state := flush_state k2 },
              Event.deleted a] ∧
           rt2.deleted = rt.deleted ++ [a]) := by
  rcases invoke_contract_shape eng m input rt with ⟨e, heq⟩ | ⟨ex, k2, s, hpers, hrev, hst, heq⟩
  · rw [heq]
  · rw [heq]
    dsimp only
    refine ⟨ex, k2, s, hrev, hst, rfl, ?_, ?_⟩
    · cases hsd : ex.selfdestroyed with
      | none => rfl
      | some a => rfl
    · cases hsd : ex.selfdestroyed with
      | none => exact ⟨rfl, rfl⟩
      | some a =>
        refine ⟨?_, rfl⟩
        simp [Runtime.delete_actor, committedRT]

/-- A single invoke run never changes the bytecode field of the persisted
record (whether it fails or succeeds). -/
theorem invoke_preserves_bytecode (eng : Engine) (m : Nat) (input : List Nat) (rt : RT) :
    ((EvmContractActor.invoke_contract eng m input rt).2.persisted).map State.bytecode =
      rt.persisted.map State.bytecode := by
  rcases invoke_contract_shape eng m input rt with ⟨e, heq⟩ | ⟨ex, k2, s, hpers, hrev, hst, heq⟩
  · rw [heq]
  · rw [heq]
    cases hsd : ex.selfdestroyed with
    | none => simp [committedRT, hpers]
    | some a => simp [Runtime.delete_actor, committedRT, hpers]

/-- Threading any sequence of invocations through the runtime never
changes the bytecode field of the persisted record. -/
theorem runInvocations_preserves_bytecode (calls : List (Engine × Nat × List Nat)) (rt : RT) :
    (runInvocations calls rt).persisted.map State.bytecode =
      rt.persisted.map State.bytecode := by
  induction calls generalizing rt with
  | nil => rfl
  | cons c rest ih =>
    rcases c with ⟨eng, m, i⟩
    rw [runInvocations]
    exact (ih _).trans (invoke_preserves_bytecode eng m i rt)

/-- Runtimes whose persisted records carry the same bytecode reference
answer the get-bytecode query identically. -/
theorem bytecode_fst_eq (rt rt2 : RT)
    (h : rt.persisted.map State.bytecode = rt2.persisted.map State.bytecode) :
    (EvmContractActor.bytecode rt).1 = (EvmContractActor.bytecode rt2).1 := by
  unfold EvmContractActor.bytecode Runtime.state
  cases h1 : rt.persisted with
  | none =>
    cases h2 : rt2.persisted with
    | none => rfl
    | some s2 => rw [h1, h2] at h; simp at h
  | some s1 =>
    cases h2 : rt2.persisted with
    | none => rw [h1, h2] at h; simp at h
    | some s2 =>
      rw [h1, h2] at h
      simp at h
      dsimp only
      rw [h]

/-- C5: a successful invoke updates only the contract_state field of the
record, leaving the bytecode reference unchanged; consequently the
get-bytecode result is identical before and after any sequence of
invocations. -/
theorem invoke_bytecode_frame (eng : Engine) (m : Nat) (input : List Nat) (rt : RT)
    (calls : List (Engine × Nat × List Nat)) :
    (∀ out rt2, EvmContractActor.invoke_contract eng m input rt = (Except.ok out, rt2) →
      ∃ s s2, rt.persisted = some s ∧ rt2.persisted = some s2 ∧
        s2.bytecode = s.bytecode ∧ s2 = { s with contract_state := s2.contract_state }) ∧
    (EvmContractActor.bytecode (runInvocations calls rt)).1 =
      (EvmContractActor.bytecode rt).1 := by
  constructor
  · intro out rt2 h
    rcases invoke_contract_shape eng m input rt with ⟨e, heq⟩ | ⟨ex, k2, s, hpers, hrev, hst, heq⟩
    · rw [heq] at h
      simp at h
    · rw [heq] at h
      have hrt2 : rt2 =
          match ex.selfdestroyed with
          | some a => Runtime.delete_actor a (committedRT k2 s rt)
          | none => committedRT k2 s rt := by
        have := congrArg Prod.snd h
        simpa using this.symm
      refine ⟨s, { s with contract_state := flush_state k2 }, hpers, ?_, rfl, rfl⟩
      rw [hrt2]
      cases ex.selfdestroyed with
      | none => rfl
      | some a => rfl
  · exact bytecode_fst_eq (runInvocations calls rt) rt
      (runInvocations_preserves_bytecode calls rt)

/-- Witness for the bytecode-frame theorem: one successful invocation on
the deployed runtime keeps the bytecode reference `[1, 2, 3]` while the
storage root changes. -/
theorem invoke_bytecode_frame_witness :
    ∃ s s2,
      rtDeployed.persisted = some s ∧
      (EvmContractActor.invoke_contract engSucc 2 [4] rtDeployed).2.persisted = some s2 ∧
      s2.bytecode = s.bytecode ∧ s2 = { s with contract_state := s2.contract_state } := by
  rcases (invoke_bytecode_frame engSucc 2 [4] rtDeployed []).1 [7]
      (EvmContractActor.invoke_contract engSucc 2 [4] rtDeployed).2 rfl with
    ⟨s, s2, h1, h2, h3, h4⟩
  exact ⟨s, s2, h1, h2, h3, h4⟩

/-- The storage-read operation never changes the runtime. -/
theorem storage_at_snd (eng : Engine) (q : GetStorageAtParams) (rt : RT) :
    (EvmContractActor.storage_at eng q rt).2 = rt := by
  unfold EvmContractActor.storage_at
  by_cases h : rt.caller = 0
  · rw [if_pos h]
    cases hs : Runtime.state rt with
    | error e => rfl
    | ok s =>
      dsimp only
      cases hl : Kamt.load_with_config s.contract_state with
      | error e => rfl
      | ok k =>
        dsimp only
        cases hn : eng.newSystem with
        | error e => rfl
        | ok u =>
          cases u
          dsimp only
          cases hg : Kamt.get k q.storage_key with
          | none => rfl
          | some v => rfl
  · rw [if_neg h]

/-- The get-bytecode operation never changes the runtime. -/
theorem bytecode_snd (rt : RT) : (EvmContractActor.bytecode rt).2 = rt := by
  unfold EvmContractActor.bytecode
  cases hs : Runtime.state rt with
  | error e => rfl
  | ok s => rfl

/-- C1: every call through the dispatcher is all-or-nothing: an error
result leaves the runtime exactly as it was (nothing persisted, nothing
deleted), while a success result means the effects of the call happened in
full — the constructor created the record, the read-only routes changed
nothing, and an invoke route committed its state transaction and then
performed exactly the self-destruct deletion its outcome requested. -/
theorem call_atomicity (eng : Engine) (m : Nat) (p : List Nat) (rt : RT) :
    match EvmContractActor.invoke_method eng m p rt with
    | (Except.error _, rt2) => rt2 = rt
    | (Except.ok out, rt2) =>
      (m = 0 → ∃ bytes k2, bytes ≠ [] ∧ rt2 = createdRT bytes k2 rt ∧ out = []) ∧
      (m = 3 ∨ m = 4 → rt2 = rt) ∧
      (m ≠ 0 → m ≠ 3 → m ≠ 4 →
        ∃ (ex : Execution) (k2 : Kamt) (s : State),
          rt.persisted = some s ∧ out = ex.output_data ∧
          rt2 = (match ex.selfdestroyed with
                 | some a => Runtime.delete_actor a (committedRT k2 s rt)
                 | none => committedRT k2 s rt)) := by
  unfold EvmContractActor.invoke_method
  rcases hfu : Method.from_u64 m with _ | mm
  · obtain ⟨h0, h2, h3, h4⟩ := (Method.from_u64_inv m).2.2.2.2.mp hfu
    dsimp only
    rcases invoke_contract_shape eng m p rt with ⟨e, heq⟩ | ⟨ex, k2, s, hpers, hrev, hst, heq⟩
    · rw [heq]
    · rw [heq]
      dsimp only
      refine ⟨fun hc => absurd hc h0, fun hc => ?_, fun _ _ _ => ⟨ex, k2, s, hpers, rfl, rfl⟩⟩
      rcases hc with hc | hc
      · exact absurd hc h3
      · exact absurd hc h4
  · cases mm with
    | Constructor =>
      have hm : m = 0 := (Method.from_u64_inv m).1.mp hfu
      subst hm
      dsimp only
      cases hd : ConstructorParams.deserialize p with
      | none => rfl
      | some q =>
        dsimp only
        rcases constructor_shape eng q rt with ⟨e, heq⟩ |
          ⟨ex, k2, hrev, hst, hout, hpn, heq⟩
        · rw [heq]
        · rw [heq]
          dsimp only
          refine ⟨fun _ => ⟨ex.output_data, k2, hout, rfl, rfl⟩, fun hc => ?_,
            fun hc _ _ => absurd rfl hc⟩
          rcases hc with hc | hc <;> exact absurd hc (by omega)
    | InvokeContract =>
      have hm : m = 2 := (Method.from_u64_inv m).2.1.mp hfu
      subst hm
      dsimp only
      rcases invoke_contract_shape eng (Method.as_u64 Method.InvokeContract) p rt with
        ⟨e, heq⟩ | ⟨ex, k2, s, hpers, hrev, hst, heq⟩
      · rw [heq]
      · rw [heq]
        dsimp only
        refine ⟨fun hc => absurd hc (by omega), fun hc => ?_,
          fun _ _ _ => ⟨ex, k2, s, hpers, rfl, rfl⟩⟩
        rcases hc with hc | hc <;> exact absurd hc (by omega)
    | GetBytecode =>
      have hm : m = 3 := (Method.from_u64_inv m).2.2.1.mp hfu
      subst hm
      dsimp only
      have hsnd := bytecode_snd rt
      rcases hb : EvmContractActor.bytecode rt with ⟨res, rt2b⟩
      rw [hb] at hsnd
      cases res with
      | error e => exact hsnd
      | ok cid =>
        dsimp only
        exact ⟨fun hc => absurd hc (by omega), fun _ => hsnd,
          fun _ hc _ => absurd rfl hc⟩
    | GetStorageAt =>
      have hm : m = 4 := (Method.from_u64_inv m).2.2.2.1.mp hfu
      subst hm
      dsimp only
      cases hd : GetStorageAtParams.deserialize p with
      | none => rfl
      | some q =>
        dsimp only
        have hsnd := storage_at_snd eng q rt
        rcases hsa : EvmContractActor.storage_at eng q rt with ⟨res, rt2s⟩
        rw [hsa] at hsnd
        cases res with
        | error e => exact hsnd
        | ok v =>
          dsimp only
          exact ⟨fun hc => absurd hc (by omega), fun _ => hsnd,
            fun _ _ hc => absurd rfl hc⟩

/-- Witness for the atomicity theorem: dispatching method 2 with input
`[4]` on the deployed runtime under the self-destructing sample engine
yields a success whose state transaction committed and whose requested
deletion of actor 5 followed it. -/
theorem call_atomicity_witness :
    ∃ (ex : Execution) (k2 : Kamt) (s : State),
      rtDeployed.persisted = some s ∧ [3] = ex.output_data ∧
      (EvmContractActor.invoke_method engDestruct 2 [4] rtDeployed).2 =
        (match ex.selfdestroyed with
         | some a => Runtime.delete_actor a (committedRT k2 s rtDeployed)
         | none => committedRT k2 s rtDeployed) :=
  (call_atomicity engDestruct 2 [4] rtDeployed).2.2 (by omega) (by omega) (by omega)

end EvmActor
